import Mathlib

/-!
Verification of the ResAtlas repository: a shallow embedding of its SQL schemas
(`Table`, `Customer`, `Reservation`, `Layout`, `Section`, `SectionInLayout`,
`TableInSection`, `ReservationAtTable`) and of its JavaScript date-time
utilities (`isValidDateTime`, `isQuarterHour`, `isDateTimeInRange`) and the
`getReservations` client, together with theorems settling the specification
claims about them.
-/

namespace ResAtlas

/-- A parsed `YYYY-MM-DDTHH:MM:SS` date-time, the six numeric components the
JavaScript code extracts with `split('-')` / `split(':')` and `Number`. -/
structure DT where
  year : Nat
  month : Nat
  day : Nat
  hour : Nat
  minute : Nat
  second : Nat
deriving DecidableEq, Repr

/-- Numeric value of a decimal digit character (`Number` on a one-digit string). -/
def digitVal (c : Char) : Nat := c.toNat - 48

/-- `Number` applied to a two-digit string. -/
def twoDigits (a b : Char) : Nat := 10 * digitVal a + digitVal b

/-- `Number` applied to a four-digit string. -/
def fourDigits (a b c d : Char) : Nat :=
  1000 * digitVal a + 100 * digitVal b + 10 * digitVal c + digitVal d

/-- The regular-expression test `^\d{4}-\d{2}-\d{2}T\d{2}:\d{2}:\d{2}$` of
`isValidDateTime`, fused with the subsequent `split` / `Number` extraction:
`some` of the six components exactly when the string matches the pattern. -/
def parseDateTime (s : String) : Option DT :=
  match s.data with
  | [y1, y2, y3, y4, c1, m1, m2, c2, d1, d2, c3, h1, h2, c4, n1, n2, c5, s1, s2] =>
    if c1 == '-' && c2 == '-' && c3 == 'T' && c4 == ':' && c5 == ':' &&
       y1.isDigit && y2.isDigit && y3.isDigit && y4.isDigit &&
       m1.isDigit && m2.isDigit && d1.isDigit && d2.isDigit &&
       h1.isDigit && h2.isDigit && n1.isDigit && n2.isDigit &&
       s1.isDigit && s2.isDigit then
      some ⟨fourDigits y1 y2 y3 y4, twoDigits m1 m2, twoDigits d1 d2,
            twoDigits h1 h2, twoDigits n1 n2, twoDigits s1 s2⟩
    else none
  | _ => none

/-- Gregorian leap-year rule, as used by the ECMAScript `Date` calendar. -/
def isLeapYear (y : Nat) : Bool := y % 4 == 0 && (y % 100 != 0 || y % 400 == 0)

/-- Number of days in a month of the proleptic Gregorian calendar. -/
def daysInMonth (y m : Nat) : Nat :=
  if m = 2 then (if isLeapYear y then 29 else 28)
  else if m = 4 ∨ m = 6 ∨ m = 9 ∨ m = 11 then 30
  else 31

/-- Model of the source's `new Date(datePart + 'T' + timePart)` construction
followed by its six component comparisons (`getFullYear`, `getMonth`,
`getDate`, `getHours`, `getMinutes`, `getSeconds`): for a string already in
the regex shape, the components survive the round trip exactly when they
denote a real proleptic-Gregorian calendar date with an in-range clock time
(ECMAScript ISO date-time parsing yields an Invalid Date, or rolled-over
components, otherwise). -/
def dateComponentsRoundTrip (dt : DT) : Bool :=
  decide (1 ≤ dt.month ∧ dt.month ≤ 12 ∧ 1 ≤ dt.day ∧
          dt.day ≤ daysInMonth dt.year dt.month ∧
          dt.hour ≤ 23 ∧ dt.minute ≤ 59 ∧ dt.second ≤ 59)

/-- `isQuarterHour` from the source: `minutes % 15 === 0`. -/
def isQuarterHour (minutes : Nat) : Bool := minutes % 15 == 0

/-- `isValidDateTime` from the source: regex test, per-component range checks
(month 1-12, hour 0-23, minute a quarter hour within 0-59, second exactly 0),
then the `Date` round-trip check. Components are natural numbers, so the
source's `< 0` comparisons are vacuous here as they are on its digit-only
inputs. -/
def isValidDateTime (s : String) : Bool :=
  match parseDateTime s with
  | none => false
  | some dt =>
    if dt.month < 1 ∨ 12 < dt.month then false
    else if 23 < dt.hour then false
    else if 59 < dt.minute ∨ isQuarterHour dt.minute = false then false
    else if dt.second ≠ 0 then false
    else dateComponentsRoundTrip dt

/-- The acceptance condition claimed by the specification for the date-time
validator, stated independently of the implementation's control flow: the
string matches the digit pattern, month lies in 1-12, hour in 0-23, minute in
{0, 15, 30, 45}, second is 0, and the date is a real calendar date. -/
def specAcceptsDateTime (s : String) : Prop :=
  ∃ dt, parseDateTime s = some dt ∧
    1 ≤ dt.month ∧ dt.month ≤ 12 ∧
    dt.hour ≤ 23 ∧
    (dt.minute = 0 ∨ dt.minute = 15 ∨ dt.minute = 30 ∨ dt.minute = 45) ∧
    dt.second = 0 ∧
    1 ≤ dt.day ∧ dt.day ≤ daysInMonth dt.year dt.month

/-- C2: the date-time validator accepts a string if and only if it matches the
digit pattern `YYYY-MM-DDTHH:MM:SS` with month in 1-12, hour in 0-23, minute
in {0, 15, 30, 45}, second 0, and a real calendar date; in particular
`2024-02-30T12:00:00` is rejected although it matches the digit pattern. -/
theorem isValidDateTime_iff_spec :
    (∀ s : String, isValidDateTime s = true ↔ specAcceptsDateTime s) ∧
    isValidDateTime "2024-02-30T12:00:00" = false ∧
    (∃ dt, parseDateTime "2024-02-30T12:00:00" = some dt) := by
  refine ⟨?_, by decide, ⟨⟨2024, 2, 30, 12, 0, 0⟩, by decide⟩⟩
  intro s
  unfold isValidDateTime specAcceptsDateTime
  cases h : parseDateTime s with
  | none => simp
  | some dt =>
    simp only [Option.some.injEq, dateComponentsRoundTrip, isQuarterHour,
      decide_eq_true_eq, beq_iff_eq]
    constructor
    · intro hv
      refine ⟨dt, rfl, ?_⟩
      split_ifs at hv with h1 h2 h3 h4
      push_neg at h1 h2 h3 h4
      have hq : dt.minute % 15 = 0 := by simpa using h3.2
      simp only [decide_eq_true_eq] at hv
      obtain ⟨hm1, hm2, hd1, hd2, hh, hmin, hs⟩ := hv
      exact ⟨hm1, hm2, hh, by omega, h4, hd1, hd2⟩
    · rintro ⟨dt2, hdt2, hm1, hm2, hh, hmin, hs, hd1, hd2⟩
      cases hdt2
      have hq : dt.minute % 15 = 0 := by omega
      have hmin59 : dt.minute ≤ 59 := by omega
      split_ifs with h1 h2 h3 h4
      · omega
      · omega
      · rcases h3 with h3 | h3
        · omega
        · rw [show (dt.minute % 15 == 0) = true from by simpa using hq] at h3
          exact absurd h3 (by simp)
      · omega
      · simp only [decide_eq_true_eq]
        exact ⟨hm1, hm2, hd1, hd2, by omega, by omega, by omega⟩

/-- Days in a year of the proleptic Gregorian calendar. -/
def daysInYear (y : Nat) : Nat := if isLeapYear y then 366 else 365

/-- Days strictly before year `y`, counting from year 0. -/
def daysBeforeYear : Nat → Nat
  | 0 => 0
  | y + 1 => daysBeforeYear y + daysInYear y

/-- Days of year `y` strictly before month `m` (months are numbered 1-12). -/
def daysBeforeMonth (y : Nat) : Nat → Nat
  | 0 => 0
  | m + 1 => daysBeforeMonth y m + (if m = 0 then 0 else daysInMonth y m)

/-- Day count of a date-time in the proleptic Gregorian calendar. -/
def dayNumber (dt : DT) : Nat :=
  daysBeforeYear dt.year + daysBeforeMonth dt.year dt.month + (dt.day - 1)

/-- Second count of a date-time: the linear timeline underlying the
ECMAScript `Date.getTime` millisecond clock (up to the fixed unit and
epoch offset, which cancel in every comparison the source performs). -/
def toTimestamp (dt : DT) : Nat :=
  (dayNumber dt * 24 + dt.hour) * 3600 + dt.minute * 60 + dt.second

/-- The error classes surfaced by the JavaScript sources: `InvalidDateError`
and `APIError` are declared in `exceptions.js`; `rangeError` models the
`RangeError` announced by the `getReservations` documentation; and
`fetchTypeError` models the generic `TypeError` a failed `fetch` rejects
with, rethrown untouched by the catch block. -/
inductive JsError where
  | invalidDateError (msg : String)
  | apiError (msg : String)
  | rangeError (msg : String)
  | fetchTypeError (msg : String)
deriving DecidableEq, Repr

/-- Model of the JavaScript `new Date(str)` conversion used by
`isDateTimeInRange`, restricted to the repository's documented
`YYYY-MM-DDTHH:MM:SS` format: a string in that shape denoting a real
date-time yields its timestamp; anything else yields an Invalid Date
(`none`, whose components compare as NaN). -/
def jsParseDate (s : String) : Option Nat :=
  match parseDateTime s with
  | none => none
  | some dt => if dateComponentsRoundTrip dt then some (toTimestamp dt) else none

/-- `isDateTimeInRange` from the source: convert the three strings with
`new Date`, throw `InvalidDateError` when any is NaN, otherwise test
`dateTime >= rangeStart && dateTime <= rangeEnd`. -/
def isDateTimeInRange (dateTimeStr rangeStartStr rangeEndStr : String) :
    Except JsError Bool :=
  match jsParseDate dateTimeStr, jsParseDate rangeStartStr, jsParseDate rangeEndStr with
  | some dateTime, some rangeStart, some rangeEnd =>
      .ok (decide (rangeStart ≤ dateTime ∧ dateTime ≤ rangeEnd))
  | _, _, _ => .error (.invalidDateError "Invalid datetime string provided")

/-- Strict chronological order on parsed date-times: lexicographic comparison
of year, month, day, hour, minute, second. -/
def chronLT (a b : DT) : Prop :=
  a.year < b.year ∨ (a.year = b.year ∧
    (a.month < b.month ∨ (a.month = b.month ∧
      (a.day < b.day ∨ (a.day = b.day ∧
        (a.hour < b.hour ∨ (a.hour = b.hour ∧
          (a.minute < b.minute ∨ (a.minute = b.minute ∧
            a.second < b.second)))))))))

/-- Chronological order, endpoints included. -/
def chronLE (a b : DT) : Prop := chronLT a b ∨ a = b

instance (a b : DT) : Decidable (chronLT a b) := by
  unfold chronLT
  infer_instance

instance (a b : DT) : Decidable (chronLE a b) := by
  unfold chronLE
  infer_instance

theorem daysInYear_pos (y : Nat) : 0 < daysInYear y := by
  unfold daysInYear
  split <;> omega

theorem daysBeforeYear_step_le {y1 y2 : Nat} (h : y1 < y2) :
    daysBeforeYear y1 + daysInYear y1 ≤ daysBeforeYear y2 := by
  induction y2 with
  | zero => omega
  | succ n ih =>
    rcases Nat.lt_succ_iff_lt_or_eq.mp h with h2 | h2
    · have := ih h2
      have := daysInYear_pos n
      simp only [daysBeforeYear]
      omega
    · subst h2
      simp [daysBeforeYear]

theorem daysBeforeMonth_succ (y m : Nat) (h : 1 ≤ m) :
    daysBeforeMonth y (m + 1) = daysBeforeMonth y m + daysInMonth y m := by
  have : daysBeforeMonth y (m + 1) =
      daysBeforeMonth y m + (if m = 0 then 0 else daysInMonth y m) := rfl
  rw [this, if_neg (by omega)]

theorem daysBeforeMonth_mono (y : Nat) {m1 m2 : Nat} (h : m1 ≤ m2) :
    daysBeforeMonth y m1 ≤ daysBeforeMonth y m2 := by
  induction m2 with
  | zero =>
    have h0 : m1 = 0 := by omega
    subst h0
    exact le_refl _
  | succ n ih =>
    rcases Nat.lt_or_ge m1 (n + 1) with h2 | h2
    · have hle := ih (by omega)
      have hstep : daysBeforeMonth y (n + 1) =
          daysBeforeMonth y n + (if n = 0 then 0 else daysInMonth y n) := rfl
      split at hstep <;> omega
    · have h0 : m1 = n + 1 := by omega
      subst h0
      exact le_refl _

theorem daysBeforeMonth_add_le (y m : Nat) (h1 : 1 ≤ m) (h2 : m ≤ 12) :
    daysBeforeMonth y m + daysInMonth y m ≤ daysInYear y := by
  interval_cases m <;> cases hb : isLeapYear y <;>
    simp_arith [daysBeforeMonth, daysInMonth, daysInYear, hb]

theorem dayNumber_lt {a b : DT}
    (ha : dateComponentsRoundTrip a = true) (hb : dateComponentsRoundTrip b = true)
    (h : a.year < b.year ∨ (a.year = b.year ∧
      (a.month < b.month ∨ (a.month = b.month ∧ a.day < b.day)))) :
    dayNumber a < dayNumber b := by
  simp only [dateComponentsRoundTrip, decide_eq_true_eq] at ha hb
  obtain ⟨ham1, ham2, had1, had2, -, -, -⟩ := ha
  obtain ⟨hbm1, hbm2, hbd1, hbd2, -, -, -⟩ := hb
  have hwithin : daysBeforeMonth a.year a.month + (a.day - 1) < daysInYear a.year := by
    have := daysBeforeMonth_add_le a.year a.month ham1 ham2
    omega
  rcases h with h | ⟨hy, h⟩
  · have h1 := daysBeforeYear_step_le h
    have h2 : daysBeforeMonth b.year b.month + (b.day - 1) ≥ 0 := by omega
    unfold dayNumber
    omega
  · rcases h with h | ⟨hm, hd⟩
    · unfold dayNumber
      rw [hy] at had2 ⊢
      have h1 : daysBeforeMonth b.year (a.month + 1) =
          daysBeforeMonth b.year a.month + daysInMonth b.year a.month :=
        daysBeforeMonth_succ b.year a.month ham1
      have h2 : daysBeforeMonth b.year (a.month + 1) ≤ daysBeforeMonth b.year b.month :=
        daysBeforeMonth_mono b.year (by omega)
      omega
    · unfold dayNumber
      rw [hy, hm]
      omega

theorem toTimestamp_lt {a b : DT}
    (ha : dateComponentsRoundTrip a = true) (hb : dateComponentsRoundTrip b = true)
    (h : chronLT a b) : toTimestamp a < toTimestamp b := by
  have ha2 := ha
  simp only [dateComponentsRoundTrip, decide_eq_true_eq] at ha2
  obtain ⟨-, -, -, -, hah, hami, hasec⟩ := ha2
  rcases h with h | ⟨hy, h⟩
  · have := dayNumber_lt ha hb (Or.inl h)
    unfold toTimestamp
    omega
  · rcases h with h | ⟨hm, h⟩
    · have := dayNumber_lt ha hb (Or.inr ⟨hy, Or.inl h⟩)
      unfold toTimestamp
      omega
    · rcases h with h | ⟨hd, h⟩
      · have := dayNumber_lt ha hb (Or.inr ⟨hy, Or.inr ⟨hm, h⟩⟩)
        unfold toTimestamp
        omega
      · have hdn : dayNumber a = dayNumber b := by
          unfold dayNumber
          rw [hy, hm, hd]
        unfold toTimestamp
        rcases h with h | ⟨hh, h⟩
        · omega
        · rcases h with h | ⟨hmi, hsec⟩
          · omega
          · omega

theorem chron_trichotomy (a b : DT) : chronLT a b ∨ a = b ∨ chronLT b a := by
  obtain ⟨ya, ma, da, ha, mia, sa⟩ := a
  obtain ⟨yb, mb, db, hb, mib, sb⟩ := b
  simp only [chronLT, DT.mk.injEq]
  omega

theorem toTimestamp_le_iff {a b : DT}
    (ha : dateComponentsRoundTrip a = true) (hb : dateComponentsRoundTrip b = true) :
    toTimestamp a ≤ toTimestamp b ↔ chronLE a b := by
  constructor
  · intro hle
    rcases chron_trichotomy a b with h | h | h
    · exact Or.inl h
    · exact Or.inr h
    · have := toTimestamp_lt hb ha h
      omega
  · intro hle
    rcases hle with h | h
    · exact le_of_lt (toTimestamp_lt ha hb h)
    · subst h
      exact le_refl _

/-- C9: for date-time strings that parse to valid dates, the range-membership
check returns true exactly when the checked date-time lies between the range
start and the range end in chronological order, both endpoints included. -/
theorem isDateTimeInRange_chronological
    (t s e : String) (dtT dtS dtE : DT)
    (ht : parseDateTime t = some dtT) (hs : parseDateTime s = some dtS)
    (he : parseDateTime e = some dtE)
    (hvt : dateComponentsRoundTrip dtT = true)
    (hvs : dateComponentsRoundTrip dtS = true)
    (hve : dateComponentsRoundTrip dtE = true) :
    isDateTimeInRange t s e = Except.ok true ↔ (chronLE dtS dtT ∧ chronLE dtT dtE) := by
  unfold isDateTimeInRange jsParseDate
  rw [ht, hs, he]
  simp only [hvt, hvs, hve, if_true, Except.ok.injEq, decide_eq_true_eq]
  rw [toTimestamp_le_iff hvs hvt, toTimestamp_le_iff hvt hve]

/-- Witness for C9 at the concrete range `18:00` to `20:00` around `19:00`. -/
theorem isDateTimeInRange_chronological_witness :
    (parseDateTime "2024-06-01T19:00:00" = some ⟨2024, 6, 1, 19, 0, 0⟩ ∧
      dateComponentsRoundTrip ⟨2024, 6, 1, 19, 0, 0⟩ = true) ∧
    (isDateTimeInRange "2024-06-01T19:00:00" "2024-06-01T18:00:00" "2024-06-01T20:00:00" =
        Except.ok true ↔
      (chronLE ⟨2024, 6, 1, 18, 0, 0⟩ ⟨2024, 6, 1, 19, 0, 0⟩ ∧
       chronLE ⟨2024, 6, 1, 19, 0, 0⟩ ⟨2024, 6, 1, 20, 0, 0⟩)) :=
  ⟨⟨by decide, by decide⟩,
    isDateTimeInRange_chronological
      "2024-06-01T19:00:00" "2024-06-01T18:00:00" "2024-06-01T20:00:00"
      ⟨2024, 6, 1, 19, 0, 0⟩ ⟨2024, 6, 1, 18, 0, 0⟩ ⟨2024, 6, 1, 20, 0, 0⟩
      (by decide) (by decide) (by decide) (by decide) (by decide) (by decide)⟩

/-- C10: the date-time validator is a total boolean function — on every
string, the empty string and non-date-like strings included, it yields
`true` or `false` — while the range check raises `InvalidDateError` on
unparseable input. -/
theorem isValidDateTime_total_nonthrowing :
    (∀ s : String, isValidDateTime s = true ∨ isValidDateTime s = false) ∧
    isValidDateTime "" = false ∧
    isValidDateTime "totally not a date" = false ∧
    isDateTimeInRange "" "" "" =
      Except.error (JsError.invalidDateError "Invalid datetime string provided") := by
  refine ⟨fun s => ?_, by decide, by decide, rfl⟩
  cases isValidDateTime s
  · exact Or.inr rfl
  · exact Or.inl rfl

/-- Outcome of the `fetch` call in `getReservations`: either the promise is
rejected (the data source is unreachable) or an HTTP response arrives with
its `ok` flag, status and body. -/
inductive FetchOutcome where
  | networkFailure (msg : String)
  | response (ok : Bool) (status : Nat) (body : String)
deriving DecidableEq, Repr

/-- `getReservations` from the source: validate both boundary date-times
with `isValidDateTime` and throw `InvalidDateError` before the fetch;
a rejected `fetch` (unreachable data source) is rethrown by the catch
block as the generic `TypeError`; a non-ok HTTP response raises
`APIError`. The function's own documentation also announces a
`RangeError` for out-of-range dates, which no code path raises. The JS
function returns `undefined` after logging the data, hence `Unit`. -/
def getReservations (startDateTime endDateTime : String)
    (fetchOutcome : FetchOutcome) : Except JsError Unit :=
  if isValidDateTime startDateTime = false ∨ isValidDateTime endDateTime = false then
    .error (.invalidDateError ("One of the given dates is not valid. Given [startDateTime = "
      ++ startDateTime ++ "], [endDateTime = " ++ endDateTime ++ "]."))
  else
    match fetchOutcome with
    | .networkFailure msg => .error (.fetchTypeError msg)
    | .response ok status _ =>
      if ok = false then
        .error (.apiError ("Error retrieving reservations (getReservations()) - Status: "
          ++ toString status))
      else .ok ()

/-- C5: the reservation time-range query fails fast with the structural
`InvalidDateError` before consulting the data source when either boundary
is malformed — the outcome is the same for every fetch outcome — but of the
three error kinds the claim names, the out-of-range one is never surfaced:
no input whatsoever makes `getReservations` produce a `RangeError`, and a
date far outside any operational horizon is accepted untouched. -/
theorem getReservations_error_kinds :
    (∀ (s e : String) (fr : FetchOutcome),
      isValidDateTime s = false ∨ isValidDateTime e = false →
      getReservations s e fr =
        Except.error (JsError.invalidDateError
          ("One of the given dates is not valid. Given [startDateTime = "
            ++ s ++ "], [endDateTime = " ++ e ++ "]."))) ∧
    (∀ (s e : String) (fr : FetchOutcome) (msg : String),
      getReservations s e fr ≠ Except.error (JsError.rangeError msg)) ∧
    getReservations "9999-12-31T23:45:00" "9999-12-31T23:45:00"
      (FetchOutcome.response true 200 "") = Except.ok () := by
  refine ⟨?_, ?_, by rfl⟩
  · intro s e fr h
    unfold getReservations
    rw [if_pos h]
  · intro s e fr msg
    unfold getReservations
    split_ifs with h
    · simp
    · cases fr with
      | networkFailure m => simp
      | response ok status body =>
        dsimp only
        split_ifs <;> simp

/-- Witness for C5: a malformed start date-time fails fast even when the
fetch would have failed with a network error. -/
theorem getReservations_error_kinds_witness :
    (isValidDateTime "" = false ∨ isValidDateTime "2024-06-01T18:00:00" = false) ∧
    getReservations "" "2024-06-01T18:00:00" (FetchOutcome.networkFailure "down") =
      Except.error (JsError.invalidDateError
        ("One of the given dates is not valid. Given [startDateTime = "
          ++ "" ++ "], [endDateTime = " ++ "2024-06-01T18:00:00" ++ "].")) :=
  ⟨Or.inl (by decide),
    getReservations_error_kinds.1 "" "2024-06-01T18:00:00"
      (FetchOutcome.networkFailure "down") (Or.inl (by decide))⟩

/-- One token of a SQLite `GLOB` pattern as used by the schemas: a literal
character or the `[0-9]` character class. In SQLite `GLOB`, `#` has no
special meaning and is an ordinary literal character. -/
inductive GlobTok where
  | lit (c : Char)
  | digit
deriving DecidableEq, Repr

/-- Whether one glob token matches one character. -/
def globTokMatches : GlobTok → Char → Bool
  | .lit c, c2 => c == c2
  | .digit, c2 => c2.isDigit

/-- Matching of a wildcard-free SQLite `GLOB` pattern against a string. -/
def globMatch : List GlobTok → List Char → Bool
  | [], [] => true
  | tok :: ps, c :: cs => globTokMatches tok c && globMatch ps cs
  | _, _ => false

/-- The refined schema's datetime pattern
`'[0-9][0-9][0-9][0-9]-[0-9][0-9]-[0-9][0-9] [0-9][0-9]:[0-9][0-9]:[0-9][0-9]'`. -/
def isoDigitGlob : List GlobTok :=
  [.digit, .digit, .digit, .digit, .lit '-', .digit, .digit, .lit '-', .digit, .digit,
   .lit ' ', .digit, .digit, .lit ':', .digit, .digit, .lit ':', .digit, .digit]

/-- The original schema's datetime pattern `'####-##-## ##:##:##'`; every
character of it, `#` included, is a literal in SQLite `GLOB`. -/
def hashMarkGlob : List GlobTok :=
  [.lit '#', .lit '#', .lit '#', .lit '#', .lit '-', .lit '#', .lit '#', .lit '-',
   .lit '#', .lit '#', .lit ' ', .lit '#', .lit '#', .lit ':', .lit '#', .lit '#',
   .lit ':', .lit '#', .lit '#']

/-- The `Customer` phone pattern `'([0-9][0-9][0-9]) [0-9][0-9][0-9]-[0-9][0-9][0-9][0-9]'`. -/
def phoneGlob : List GlobTok :=
  [.lit '(', .digit, .digit, .digit, .lit ')', .lit ' ', .digit, .digit, .digit,
   .lit '-', .digit, .digit, .digit, .digit]

/-- The original schema's `CHECK` on `Reservation.reservation_datetime`. -/
def reservationDatetimeOkV1 (s : String) : Bool := globMatch hashMarkGlob s.data

/-- The refined schema's `CHECK` on `Reservation.reservation_datetime`. -/
def reservationDatetimeOkV2 (s : String) : Bool := globMatch isoDigitGlob s.data

/-- A row of `"Table"` / `_Table` (identical columns in both schema variants).
SQLite `REAL` coordinates are modelled over `Int`: the `CHECK` only compares
coordinates with `<` and `>`, which any linearly ordered carrier reflects. -/
structure TableRow where
  table_number : Int
  default_chairs : Int
  max_chairs : Int
  tl_x : Int
  tl_y : Int
  tr_x : Int
  tr_y : Int
  bl_x : Int
  bl_y : Int
  br_x : Int
  br_y : Int
deriving DecidableEq, Repr

/-- The geometry `CHECK` of both `"Table"` variants, conjunct for conjunct;
its second conjunct compares `bl_x` with `br_y`, exactly as the source. -/
def tableGeometryCheck (t : TableRow) : Bool :=
  decide (t.tl_x < t.tr_x ∧ t.bl_x < t.br_y ∧ t.tl_y > t.bl_y ∧ t.tr_y > t.br_y)

/-- The four corner-ordering inequalities as stated by the specification
(and by the schema's own comments): `tl.x < tr.x`, `bl.x < br.x`,
`tl.y > bl.y`, `tr.y > br.y`. -/
def specGeometryOK (t : TableRow) : Bool :=
  decide (t.tl_x < t.tr_x ∧ t.bl_x < t.br_x ∧ t.tl_y > t.bl_y ∧ t.tr_y > t.br_y)

/-- A row of `Customer` (identical in both schema variants). -/
structure CustomerRow where
  customer_id : Int
  first_name : String
  last_name : String
  phone_number : String
  email : Option String
deriving DecidableEq, Repr

/-- The `Customer` phone `CHECK`: exactly 14 characters and the
`"(000) 000-0000"` glob. -/
def customerPhoneCheck (p : String) : Bool :=
  p.length == 14 && globMatch phoneGlob p.data

/-- A row of the refined schema's `Reservation` (no `table_set_id`; tables
are attached through `ReservationAtTable`). -/
structure ReservationRow where
  reservation_id : Int
  customer_id : Int
  num_people : Int
  reservation_datetime : String
  date_created : String
  num_highchairs : Int
  notes : Option String
deriving DecidableEq, Repr

/-- The refined schema's `Reservation` format `CHECK` on both datetime
columns. -/
def reservationFormatCheck (r : ReservationRow) : Bool :=
  reservationDatetimeOkV2 r.reservation_datetime &&
  reservationDatetimeOkV2 r.date_created

/-- A row of `Layout`. -/
structure LayoutRow where
  layout_id : Int
  layout_common_name : Option String
deriving DecidableEq, Repr

/-- A row of `Section`. -/
structure SectionRow where
  section_id : Int
  section_common_name : Option String
deriving DecidableEq, Repr

/-- A row of `SectionInLayout`. -/
structure SectionInLayoutRow where
  section_id : Int
  layout_id : Int
  section_number : Int
  server_name : Option String
deriving DecidableEq, Repr

/-- A row of `TableInSection`. -/
structure TableInSectionRow where
  table_number : Int
  layout_id : Int
  section_number : Int
deriving DecidableEq, Repr

/-- A row of `ReservationAtTable`. -/
structure ReservationAtTableRow where
  reservation_id : Int
  reservation_datetime : String
  table_number : Int
deriving DecidableEq, Repr

/-- The database state of the refined schema: one list of rows per table. -/
structure Db where
  customers : List CustomerRow
  reservations : List ReservationRow
  tables : List TableRow
  layouts : List LayoutRow
  sections : List SectionRow
  sectionInLayout : List SectionInLayoutRow
  tableInSection : List TableInSectionRow
  reservationAtTable : List ReservationAtTableRow
deriving DecidableEq, Repr

/-- The empty database. -/
def Db.empty : Db := ⟨[], [], [], [], [], [], [], []⟩

/-- The constraint classes with which SQLite rejects an `INSERT`. -/
inductive DbError where
  | primaryKeyViolation
  | uniqueViolation
  | checkViolation
  | foreignKeyViolation
deriving DecidableEq, Repr

/-- `INSERT` into `"Table"` / `_Table`: integer primary key `table_number`
and the geometry `CHECK`. -/
def insertTable (db : Db) (t : TableRow) : Except DbError Db :=
  if db.tables.any (fun t0 => t0.table_number == t.table_number) then
    .error .primaryKeyViolation
  else if tableGeometryCheck t = false then .error .checkViolation
  else .ok { db with tables := db.tables ++ [t] }

/-- Two `Customer` rows agreeing on the `UNIQUE (first_name, last_name,
phone_number)` key. -/
def sameCustomerTriple (a b : CustomerRow) : Bool :=
  a.first_name == b.first_name && a.last_name == b.last_name &&
  a.phone_number == b.phone_number

/-- `INSERT` into `Customer`: primary key `customer_id`, the phone `CHECK`,
and `UNIQUE (first_name, last_name, phone_number)`. -/
def insertCustomer (db : Db) (c : CustomerRow) : Except DbError Db :=
  if db.customers.any (fun c0 => c0.customer_id == c.customer_id) then
    .error .primaryKeyViolation
  else if customerPhoneCheck c.phone_number = false then .error .checkViolation
  else if db.customers.any (fun c0 => sameCustomerTriple c0 c) then
    .error .uniqueViolation
  else .ok { db with customers := db.customers ++ [c] }

/-- Two `Reservation` rows agreeing on the `UNIQUE (customer_id,
reservation_datetime)` key. -/
def sameBookingSlot (a b : ReservationRow) : Bool :=
  a.customer_id == b.customer_id && a.reservation_datetime == b.reservation_datetime

/-- `INSERT` into the refined `Reservation`: primary key `reservation_id`,
foreign key to `Customer`, the datetime format `CHECK`, `UNIQUE
(customer_id, reservation_datetime)` and `UNIQUE (reservation_id,
reservation_datetime)`. -/
def insertReservation (db : Db) (r : ReservationRow) : Except DbError Db :=
  if db.reservations.any (fun r0 => r0.reservation_id == r.reservation_id) then
    .error .primaryKeyViolation
  else if (db.customers.any (fun c => c.customer_id == r.customer_id)) = false then
    .error .foreignKeyViolation
  else if reservationFormatCheck r = false then .error .checkViolation
  else if db.reservations.any (fun r0 => sameBookingSlot r0 r) then
    .error .uniqueViolation
  else if db.reservations.any (fun r0 =>
      r0.reservation_id == r.reservation_id &&
      r0.reservation_datetime == r.reservation_datetime) then
    .error .uniqueViolation
  else .ok { db with reservations := db.reservations ++ [r] }

/-- `INSERT` into `Layout`: primary key `layout_id`. -/
def insertLayout (db : Db) (l : LayoutRow) : Except DbError Db :=
  if db.layouts.any (fun l0 => l0.layout_id == l.layout_id) then
    .error .primaryKeyViolation
  else .ok { db with layouts := db.layouts ++ [l] }

/-- `INSERT` into `Section`: primary key `section_id`. -/
def insertSection (db : Db) (s : SectionRow) : Except DbError Db :=
  if db.sections.any (fun s0 => s0.section_id == s.section_id) then
    .error .primaryKeyViolation
  else .ok { db with sections := db.sections ++ [s] }

/-- `INSERT` into `SectionInLayout`: primary key `(section_id, layout_id)`,
`UNIQUE (layout_id, section_number)`, foreign keys to `Section` and
`Layout`. -/
def insertSectionInLayout (db : Db) (r : SectionInLayoutRow) : Except DbError Db :=
  if db.sectionInLayout.any (fun r0 =>
      r0.section_id == r.section_id && r0.layout_id == r.layout_id) then
    .error .primaryKeyViolation
  else if db.sectionInLayout.any (fun r0 =>
      r0.layout_id == r.layout_id && r0.section_number == r.section_number) then
    .error .uniqueViolation
  else if (db.sections.any (fun s => s.section_id == r.section_id)) = false then
    .error .foreignKeyViolation
  else if (db.layouts.any (fun l => l.layout_id == r.layout_id)) = false then
    .error .foreignKeyViolation
  else .ok { db with sectionInLayout := db.sectionInLayout ++ [r] }

/-- `INSERT` into `TableInSection`: primary key `(table_number, layout_id,
section_number)`, foreign keys to `_Table` and to `SectionInLayout`'s
`(layout_id, section_number)` key. -/
def insertTableInSection (db : Db) (r : TableInSectionRow) : Except DbError Db :=
  if db.tableInSection.any (fun r0 =>
      r0.table_number == r.table_number && r0.layout_id == r.layout_id &&
      r0.section_number == r.section_number) then
    .error .primaryKeyViolation
  else if (db.tables.any (fun t => t.table_number == r.table_number)) = false then
    .error .foreignKeyViolation
  else if (db.sectionInLayout.any (fun s =>
      s.layout_id == r.layout_id && s.section_number == r.section_number)) = false then
    .error .foreignKeyViolation
  else .ok { db with tableInSection := db.tableInSection ++ [r] }

/-- `INSERT` into `ReservationAtTable`: primary key `(reservation_id,
reservation_datetime, table_number)`, foreign keys to `Reservation`'s
`(reservation_id, reservation_datetime)` key and to `_Table`. -/
def insertReservationAtTable (db : Db) (r : ReservationAtTableRow) : Except DbError Db :=
  if db.reservationAtTable.any (fun r0 =>
      r0.reservation_id == r.reservation_id &&
      r0.reservation_datetime == r.reservation_datetime &&
      r0.table_number == r.table_number) then
    .error .primaryKeyViolation
  else if (db.reservations.any (fun q =>
      q.reservation_id == r.reservation_id &&
      q.reservation_datetime == r.reservation_datetime)) = false then
    .error .foreignKeyViolation
  else if (db.tables.any (fun t => t.table_number == r.table_number)) = false then
    .error .foreignKeyViolation
  else .ok { db with reservationAtTable := db.reservationAtTable ++ [r] }

/-- Whether the result of an `INSERT` chain is a state satisfying `p`. -/
def exceptHolds (x : Except DbError Db) (p : Db → Bool) : Bool :=
  match x with
  | .ok db => p db
  | .error _ => false

instance {ε α : Type} [DecidableEq ε] [DecidableEq α] : DecidableEq (Except ε α) :=
  fun x y =>
    match x, y with
    | .ok a, .ok b =>
      if h : a = b then isTrue (by rw [h]) else isFalse (fun hc => by cases hc; exact h rfl)
    | .error a, .error b =>
      if h : a = b then isTrue (by rw [h]) else isFalse (fun hc => by cases hc; exact h rfl)
    | .ok _, .error _ => isFalse (fun hc => by cases hc)
    | .error _, .ok _ => isFalse (fun hc => by cases hc)

theorem globMatch_all_lits (ps cs : List Char) :
    globMatch (ps.map GlobTok.lit) cs = true ↔ cs = ps := by
  induction ps generalizing cs with
  | nil => cases cs <;> simp [globMatch]
  | cons p ps ih =>
    cases cs with
    | nil => simp [globMatch]
    | cons c cs =>
      simp only [List.map_cons, globMatch, globTokMatches, Bool.and_eq_true,
        beq_iff_eq, List.cons.injEq, ih]
      constructor
      · rintro ⟨h1, h2⟩
        exact ⟨h1.symm, h2⟩
      · rintro ⟨h1, h2⟩
        exact ⟨h1.symm, h2⟩

/-- C8: the two schema variants do not admit the same
`reservation_datetime` strings. The refined variant's `CHECK` accepts
exactly the digit-pattern strings, but in the original variant's pattern
`'####-##-## ##:##:##'` every `#` is a literal character under SQLite
`GLOB`, so that `CHECK` rejects `2024-01-01 18:00:00` and accepts exactly
the one literal string `####-##-## ##:##:##`. -/
theorem reservation_datetime_globs_not_equivalent :
    reservationDatetimeOkV2 "2024-01-01 18:00:00" = true ∧
    reservationDatetimeOkV1 "2024-01-01 18:00:00" = false ∧
    (∀ s : String, reservationDatetimeOkV1 s = true ↔ s.data = "####-##-## ##:##:##".data) := by
  refine ⟨by decide, by decide, fun s => ?_⟩
  have hpat : hashMarkGlob = List.map GlobTok.lit "####-##-## ##:##:##".data := by decide
  unfold reservationDatetimeOkV1
  rw [hpat]
  exact globMatch_all_lits _ _

/-- A table accepted by the schema's geometry `CHECK` although its corners
violate the specification's `bl.x < br.x`: corners tl = (0, 10),
tr = (10, 11), bl = (5, 0), br = (4, 6). -/
def skewedTable : TableRow :=
  ⟨1, 2, 4, 0, 10, 10, 11, 5, 0, 4, 6⟩

/-- A table satisfying all four of the specification's corner-ordering
inequalities that the schema's `CHECK` rejects: corners tl = (0, 10),
tr = (10, 10), bl = (0, 0), br = (10, -5). -/
def lowRightTable : TableRow :=
  ⟨2, 2, 4, 0, 10, 10, 10, 0, 0, 10, -5⟩

/-- C3: the geometry `CHECK` does not coincide with the four corner-ordering
inequalities: creating `skewedTable` succeeds although `bl.x < br.x` fails,
and creating `lowRightTable` fails although all four inequalities hold —
because the `CHECK`'s second conjunct compares `bl_x` with `br_y` instead
of `br_x`. -/
theorem table_check_diverges_from_corner_ordering :
    (insertTable Db.empty skewedTable).isOk = true ∧
    specGeometryOK skewedTable = false ∧
    insertTable Db.empty lowRightTable = Except.error DbError.checkViolation ∧
    specGeometryOK lowRightTable = true := by
  decide

/-- Customer 1 of the booking scenarios. -/
def custIda : CustomerRow := ⟨1, "Ida", "Smith", "(555) 123-4567", none⟩

/-- Customer 2 of the booking scenarios. -/
def custJoe : CustomerRow := ⟨2, "Joe", "Baker", "(555) 765-4321", none⟩

/-- Table number 5 of the scenarios; its geometry passes the schema `CHECK`. -/
def tableFive : TableRow := ⟨5, 2, 4, 0, 10, 10, 10, 0, 0, 10, 5⟩

/-- The shared reservation date-time of the scenarios. -/
def dtEvening : String := "2024-06-01 18:00:00"

/-- Ida's reservation at `dtEvening`. -/
def resIda : ReservationRow := ⟨1, 1, 4, dtEvening, "2024-05-01 12:00:00", 0, none⟩

/-- Joe's reservation, also at `dtEvening`. -/
def resJoe : ReservationRow := ⟨2, 2, 2, dtEvening, "2024-05-02 12:00:00", 0, none⟩

/-- Insert two customers, one table, two reservations at the same date-time,
then assign both reservations to table 5 at that same date-time. -/
def doubleBookingSetup : Except DbError Db :=
  (insertCustomer Db.empty custIda).bind fun db =>
  (insertCustomer db custJoe).bind fun db =>
  (insertTable db tableFive).bind fun db =>
  (insertReservation db resIda).bind fun db =>
  (insertReservation db resJoe).bind fun db =>
  (insertReservationAtTable db ⟨1, dtEvening, 5⟩).bind fun db =>
  insertReservationAtTable db ⟨2, dtEvening, 5⟩

/-- C1: the `ReservationAtTable` store does not guarantee point-in-time
uniqueness per `(table_number, reservation_datetime)`: its primary key also
contains `reservation_id`, so two distinct reservations are both recorded
at table 5 for the identical date-time, every constraint holding. -/
theorem reservationAtTable_admits_two_reservations_same_table_time :
    exceptHolds doubleBookingSetup (fun db =>
      decide ((⟨1, dtEvening, 5⟩ : ReservationAtTableRow) ∈ db.reservationAtTable) &&
      decide ((⟨2, dtEvening, 5⟩ : ReservationAtTableRow) ∈ db.reservationAtTable)) = true ∧
    (⟨1, dtEvening, 5⟩ : ReservationAtTableRow) ≠ (⟨2, dtEvening, 5⟩ : ReservationAtTableRow) ∧
    (ReservationAtTableRow.mk 1 dtEvening 5).table_number =
      (ReservationAtTableRow.mk 2 dtEvening 5).table_number ∧
    (ReservationAtTableRow.mk 1 dtEvening 5).reservation_datetime =
      (ReservationAtTableRow.mk 2 dtEvening 5).reservation_datetime := by
  refine ⟨by decide, by decide, rfl, rfl⟩

/-- Layout A of scenario D. -/
def layoutA : LayoutRow := ⟨1, some "A"⟩

/-- Layout B of scenario D. -/
def layoutB : LayoutRow := ⟨2, some "B"⟩

/-- Insert two layouts, two sections, bind section 10 as number 1 and
section 20 as number 2 of layout A and section 10 as number 1 of layout B,
insert table 5, then place table 5 in sections 1 and 2 of layout A and in
section 1 of layout B. -/
def doublePlacementSetup : Except DbError Db :=
  (insertLayout Db.empty layoutA).bind fun db =>
  (insertLayout db layoutB).bind fun db =>
  (insertSection db ⟨10, none⟩).bind fun db =>
  (insertSection db ⟨20, none⟩).bind fun db =>
  (insertSectionInLayout db ⟨10, 1, 1, none⟩).bind fun db =>
  (insertSectionInLayout db ⟨20, 1, 2, none⟩).bind fun db =>
  (insertSectionInLayout db ⟨10, 2, 1, none⟩).bind fun db =>
  (insertTable db tableFive).bind fun db =>
  (insertTableInSection db ⟨5, 1, 1⟩).bind fun db =>
  (insertTableInSection db ⟨5, 1, 2⟩).bind fun db =>
  insertTableInSection db ⟨5, 2, 1⟩

/-- C4: `TableInSection` does not confine a table to one section per
layout: its primary key contains `section_number`, so placing table 5 into
section 1 of layout A and then into section 2 of the same layout A both
succeed (as does the cross-layout placement), every constraint holding. -/
theorem tableInSection_admits_two_sections_same_layout :
    exceptHolds doublePlacementSetup (fun db =>
      decide ((⟨5, 1, 1⟩ : TableInSectionRow) ∈ db.tableInSection) &&
      decide ((⟨5, 1, 2⟩ : TableInSectionRow) ∈ db.tableInSection) &&
      decide ((⟨5, 2, 1⟩ : TableInSectionRow) ∈ db.tableInSection)) = true ∧
    (TableInSectionRow.mk 5 1 1).layout_id = (TableInSectionRow.mk 5 1 2).layout_id ∧
    (TableInSectionRow.mk 5 1 1).section_number ≠ (TableInSectionRow.mk 5 1 2).section_number := by
  refine ⟨by decide, rfl, by decide⟩

/-- No two stored reservations share a `(customer_id, reservation_datetime)`
pair: the `UNIQUE` constraint of the `Reservation` table as a state
invariant. -/
def bookingSlotUnique (db : Db) : Prop :=
  db.reservations.Pairwise (fun a b => sameBookingSlot a b = false)

instance (db : Db) : Decidable (bookingSlotUnique db) := by
  unfold bookingSlotUnique
  infer_instance

/-- C6: a customer holds at most one reservation per exact date-time:
inserting a reservation whose `(customer_id, reservation_datetime)` pair is
already present always fails, and every successful insertion — the only
reservation-creating operation — preserves the uniqueness invariant. -/
theorem insertReservation_booking_slot_unique :
    (∀ (db : Db) (r : ReservationRow) (db2 : Db),
      insertReservation db r = Except.ok db2 →
      bookingSlotUnique db → bookingSlotUnique db2) ∧
    (∀ (db : Db) (r : ReservationRow),
      db.reservations.any (fun r0 => sameBookingSlot r0 r) = true →
      ∀ db2 : Db, insertReservation db r ≠ Except.ok db2) := by
  constructor
  · intro db r db2 hok huniq
    unfold insertReservation at hok
    split_ifs at hok with h1 h2 h3 h4 h5
    cases hok
    unfold bookingSlotUnique at huniq ⊢
    rw [List.pairwise_append]
    refine ⟨huniq, List.pairwise_singleton _ _, ?_⟩
    intro a ha b hb
    simp only [List.mem_singleton] at hb
    subst hb
    simp only [List.any_eq_true, not_exists, not_and] at h4
    have := h4 a ha
    simpa using this
  · intro db r h db2 hok
    unfold insertReservation at hok
    split_ifs at hok

/-- A database holding Ida and her reservation at `dtEvening`. -/
def idaDb : Db := { Db.empty with customers := [custIda], reservations := [resIda] }

/-- A second reservation of Ida at a different date-time. -/
def resIdaLater : ReservationRow :=
  ⟨2, 1, 2, "2024-06-02 18:00:00", "2024-05-01 12:00:00", 0, none⟩

/-- A reservation duplicating Ida's `(customer_id, reservation_datetime)`
pair under a fresh `reservation_id`. -/
def resIdaDup : ReservationRow :=
  ⟨3, 1, 2, dtEvening, "2024-05-03 12:00:00", 0, none⟩

/-- Witness for C6: on a concrete state, a fresh slot inserts and keeps the
invariant, and the duplicated slot is rejected. -/
theorem insertReservation_booking_slot_unique_witness :
    (bookingSlotUnique { idaDb with reservations := idaDb.reservations ++ [resIdaLater] } ∧
      bookingSlotUnique idaDb) ∧
    ((idaDb.reservations.any (fun r0 => sameBookingSlot r0 resIdaDup)) = true ∧
      insertReservation idaDb resIdaDup ≠ Except.ok Db.empty) :=
  ⟨⟨insertReservation_booking_slot_unique.1 idaDb resIdaLater _ (by decide) (by decide),
    by decide⟩,
   ⟨by decide,
    insertReservation_booking_slot_unique.2 idaDb resIdaDup (by decide) Db.empty⟩⟩

/-- Eva Smith, the first customer of scenario E. -/
def custEvaSmith : CustomerRow := ⟨1, "Eva", "Smith", "(555) 111-2222", none⟩

/-- Eva Jones: identical phone number, different last name. -/
def custEvaJones : CustomerRow := ⟨2, "Eva", "Jones", "(555) 111-2222", none⟩

/-- A fresh record with exactly Eva Smith's `(first, last, phone)` triple. -/
def custEvaSmithDup : CustomerRow := ⟨3, "Eva", "Smith", "(555) 111-2222", none⟩

/-- Insert Eva Smith and then Eva Jones (same phone, different last name). -/
def sharedPhoneSetup : Except DbError Db :=
  (insertCustomer Db.empty custEvaSmith).bind fun db =>
  insertCustomer db custEvaJones

/-- C7: customer identity is keyed by the `(first_name, last_name,
phone_number)` triple: any insertion whose triple is already present fails
and creates no record, while two customers sharing only the phone number
are both created. -/
theorem insertCustomer_triple_unique :
    (∀ (db : Db) (c : CustomerRow),
      db.customers.any (fun c0 => sameCustomerTriple c0 c) = true →
      ∀ db2 : Db, insertCustomer db c ≠ Except.ok db2) ∧
    exceptHolds sharedPhoneSetup (fun db =>
      decide (db.customers = [custEvaSmith, custEvaJones]) &&
      decide (insertCustomer db custEvaSmithDup = Except.error DbError.uniqueViolation)) = true := by
  constructor
  · intro db c h db2 hok
    unfold insertCustomer at hok
    split_ifs at hok
  · decide

/-- Witness for C7: the duplicate-triple insertion into the concrete
two-customer state is rejected. -/
theorem insertCustomer_triple_unique_witness :
    (([custEvaSmith, custEvaJones].any (fun c0 => sameCustomerTriple c0 custEvaSmithDup)) = true ∧
      insertCustomer { Db.empty with customers := [custEvaSmith, custEvaJones] } custEvaSmithDup ≠
        Except.ok Db.empty) :=
  ⟨by decide,
   insertCustomer_triple_unique.1 { Db.empty with customers := [custEvaSmith, custEvaJones] }
     custEvaSmithDup (by decide) Db.empty⟩

end ResAtlas
